import Mathlib

/-!
# Lec-Recall backend: shallow embedding and verification

A shallow embedding of the Lec-Recall real-time quiz backend
(`lec-recall-backend/socket/socketHandlers.js`,
`lec-recall-backend/controllers/sessionController.js`,
`lec-recall-backend/controllers/analyticsController.js`, and the SQLite
schema).  Database ids (uuids in the source) are modelled as `Nat` tokens;
timestamps are modelled as `Nat` milliseconds; quiz option labels and the
`correct_answer` column are modelled as `String` values, exactly as stored.
SQL aggregate rows are modelled over `ℚ`; SQLite returns `NULL` for a
division by zero, which is modelled by `Option ℚ` with `none` for `NULL`.
-/

namespace LecRecall

/-! ## Data model (database/schema.sql) -/

/-- A row of the `questions` table.  `created_at` is a timestamp used by the
`ORDER BY q.created_at ASC` clauses; lists of rows below are taken in that
creation order. -/
structure QuestionRow where
  id : Nat
  session_id : Nat
  formatted_question : String
  option_a : String
  option_b : String
  option_c : String
  option_d : String
  correct_answer : String
  created_at : Nat
  deriving DecidableEq

/-- A row of the `student_answers` table.  The schema's only uniqueness
constraint is `id TEXT PRIMARY KEY`; there is no constraint on the
`(question_id, student_id)` pair. -/
structure AnswerRow where
  id : Nat
  question_id : Nat
  student_id : Nat
  selected_answer : String
  deriving DecidableEq

/-- A row of the `sessions` table (the columns used by the handlers under
verification). -/
structure SessionRow where
  id : Nat
  lecturer_name : String
  session_name : String
  join_code : String
  status : String
  time_limit : Nat
  ended_at : Option Nat
  deriving DecidableEq

/-- The `student_answers` schema constraint: `id` is the primary key (and the
only uniqueness constraint on the table). -/
def answersPrimaryKeyOk (answers : List AnswerRow) : Prop :=
  (answers.map AnswerRow.id).Nodup

instance (answers : List AnswerRow) : Decidable (answersPrimaryKeyOk answers) :=
  inferInstanceAs (Decidable (List.Nodup _))

/-! ## Quiz Timer Registry (socketHandlers.js line 8)

`const activeQuizTimers = new Map(); // sessionId -> { questionId, startTime, timeLimit }`

The JS `Map` keyed by session id is modelled as an association list. -/

/-- An entry of `activeQuizTimers`: `{ questionId, startTime, timeLimit }`,
with `startTime` in ms since epoch and `timeLimit` in ms. -/
structure TimerEntry where
  questionId : Nat
  startTime : Nat
  timeLimit : Nat
  deriving DecidableEq

/-- The registry `activeQuizTimers`, an association list from session id to
its single timer entry. -/
abbrev Registry := List (Nat × TimerEntry)

/-- `activeQuizTimers.get(sessionId)`. -/
def lookupTimer : Registry → Nat → Option TimerEntry
  | [], _ => none
  | (k, v) :: rest, sessionId =>
      if k = sessionId then some v else lookupTimer rest sessionId

/-- `activeQuizTimers.set(sessionId, entry)`: replaces the entry for the key
if present, otherwise appends it. -/
def setTimer : Registry → Nat → TimerEntry → Registry
  | [], sessionId, entry => [(sessionId, entry)]
  | (k, v) :: rest, sessionId, entry =>
      if k = sessionId then (sessionId, entry) :: rest
      else (k, v) :: setTimer rest sessionId entry

/-- `activeQuizTimers.delete(sessionId)`. -/
def deleteTimer : Registry → Nat → Registry
  | [], _ => []
  | (k, v) :: rest, sessionId =>
      if k = sessionId then deleteTimer rest sessionId
      else (k, v) :: deleteTimer rest sessionId

/-! ## Broadcast events emitted to the session room -/

/-- The participant-facing events emitted by the timer paths under
verification (`io.to(sessionId).emit(...)` and the lecturer confirmation). -/
inductive Broadcast where
  /-- `quiz-timeout` with `{ questionId, correctAnswer }` (line 199). -/
  | quizTimeout (questionId : Nat) (correctAnswer : String)
  /-- `quiz-results` with `{ questionId, correctAnswer, endedManually }`
  (line 379). -/
  | quizResults (questionId : Nat) (correctAnswer : String) (endedManually : Bool)
  /-- `quiz-ended-confirm` to the lecturer (line 386). -/
  | quizEndedConfirm (questionId : Nat)
  deriving DecidableEq

/-! ## join-session handler (socketHandlers.js lines 39-114) -/

/-- One element of the `previousQuestions` array built at lines 70-82 of the
`join-session` handler (options flattened into named fields). -/
structure ClientQuestion where
  questionId : Nat
  question : String
  optionA : String
  optionB : String
  optionC : String
  optionD : String
  correctAnswer : String
  answered : Bool
  selectedAnswer : Option String
  deriving DecidableEq

/-- The per-row mapping `questions.map(q => ({...}))` at lines 70-82:
every field, including `correctAnswer: q.correctAnswer`, with
`answered: false` and `selectedAnswer: null`. -/
def formatQuestion (q : QuestionRow) : ClientQuestion :=
  { questionId := q.id
    question := q.formatted_question
    optionA := q.option_a
    optionB := q.option_b
    optionC := q.option_c
    optionD := q.option_d
    correctAnswer := q.correct_answer
    answered := false
    selectedAnswer := none }

/-- The `previousQuestions` payload of `session-joined`: the session's
question rows (given in `created_at` order, per `ORDER BY created_at ASC`)
mapped through `formatQuestion`. -/
def previousQuestions (questions : List QuestionRow) : List ClientQuestion :=
  questions.map formatQuestion

/-- The `currentTimer` payload of `session-joined` (lines 86-95). -/
structure TimerInfo where
  questionId : Nat
  timeRemaining : Nat
  startTime : Nat
  deriving DecidableEq

/-- `Math.ceil(ms / 1000)` for a non-negative `ms`. -/
def msToSecCeil (ms : Nat) : Nat := (ms + 999) / 1000

/-- Lines 84-95 of the `join-session` handler: read the active timer, compute
`elapsed = Date.now() - startTime`, `remaining = Math.max(0, timeLimit -
elapsed)` and report `timeRemaining: Math.ceil(remaining / 1000)`. -/
def currentTimerInfo (reg : Registry) (sessionId now : Nat) : Option TimerInfo :=
  match lookupTimer reg sessionId with
  | none => none
  | some activeTimer =>
      let elapsed : ℤ := (now : ℤ) - (activeTimer.startTime : ℤ)
      let remaining : ℤ := max 0 ((activeTimer.timeLimit : ℤ) - elapsed)
      some { questionId := activeTimer.questionId
             timeRemaining := msToSecCeil remaining.toNat
             startTime := activeTimer.startTime }

/-- Modelled from the spec's words for the late-join snapshot: a derived
time remaining computed as `max(0, duration − (now − start))` (in ms), read
from the Quiz Timer Registry entry. -/
def specTimeRemainingMs (t : TimerEntry) (now : Nat) : ℤ :=
  max 0 ((t.timeLimit : ℤ) - ((now : ℤ) - (t.startTime : ℤ)))

/-! ## transcript-chunk handler: the new-quiz broadcast (lines 168-205) -/

/-- The result of `generateQuiz` (geminiService): four options and the
correct label. -/
structure GeneratedQuiz where
  optionA : String
  optionB : String
  optionC : String
  optionD : String
  correctAnswer : String
  deriving DecidableEq

/-- The `new-quiz` payload emitted to the session room at lines 180-192. -/
structure NewQuizPayload where
  questionId : Nat
  question : String
  optionA : String
  optionB : String
  optionC : String
  optionD : String
  correctAnswer : String
  timeLimit : Nat
  startTime : Nat
  deriving DecidableEq

/-- Lines 180-192: `io.to(sessionId).emit('new-quiz', { questionId, question,
options, correctAnswer: quiz.correctAnswer, timeLimit, startTime })`. -/
def newQuizPayload (questionId : Nat) (question : String) (quiz : GeneratedQuiz)
    (timeLimit startTime : Nat) : NewQuizPayload :=
  { questionId := questionId
    question := question
    optionA := quiz.optionA
    optionB := quiz.optionB
    optionC := quiz.optionC
    optionD := quiz.optionD
    correctAnswer := quiz.correctAnswer
    timeLimit := timeLimit
    startTime := startTime }

/-- The deferred timeout callback scheduled at lines 194-205: re-read
`activeQuizTimers.get(sessionId)`; if the entry still references this
`questionId`, emit `quiz-timeout` with the closure's correct answer;
otherwise do nothing.  The callback never mutates the registry.  Returns the
registry after the callback together with the list of emitted events. -/
def timeoutCallback (reg : Registry) (sessionId questionId : Nat)
    (correctAnswer : String) : Registry × List Broadcast :=
  match lookupTimer reg sessionId with
  | some currentTimer =>
      if currentTimer.questionId = questionId then
        (reg, [Broadcast.quizTimeout questionId correctAnswer])
      else (reg, [])
  | none => (reg, [])

/-! ## end-quiz-manually handler (lines 360-393) -/

/-- The `end-quiz-manually` handler, given the `correct_answer` fetched for
`questionId` (the `db.get` success path): delete the registry entry only when
it still references `questionId`, then unconditionally emit `quiz-results`
(with `endedManually: true`) to the room and `quiz-ended-confirm` to the
lecturer. -/
def endQuizManually (reg : Registry) (sessionId questionId : Nat)
    (correct_answer : String) : Registry × List Broadcast :=
  let regAfter :=
    match lookupTimer reg sessionId with
    | some currentTimer =>
        if currentTimer.questionId = questionId then deleteTimer reg sessionId
        else reg
    | none => reg
  (regAfter,
    [Broadcast.quizResults questionId correct_answer true,
     Broadcast.quizEndedConfirm questionId])

/-! ## stop-recording handler (lines 415-420) and the join lookup -/

/-- Lines 416-419: `UPDATE sessions SET status = "ended", ended_at =
CURRENT_TIMESTAMP WHERE id = ?`. -/
def stopRecording (sessions : List SessionRow) (sessionId now : Nat) :
    List SessionRow :=
  sessions.map fun s =>
    if s.id = sessionId then { s with status := "ended", ended_at := some now }
    else s

/-- The join lookup (line 44): `SELECT id FROM sessions WHERE join_code = ?
AND status != "ended"`. -/
def findJoinableSession (sessions : List SessionRow) (joinCode : String) :
    Option SessionRow :=
  sessions.find? fun s => s.join_code == joinCode && s.status != "ended"

/-! ## create-session (sessionController.js lines 7-35, socketHandlers.js
lines 14-36).  Both paths are identical for our purposes: no validation,
`timeLimit = data.timeLimit || 10`, then the INSERT. -/

/-- The request body of `create-session`.  A JS-absent `timeLimit` is
`none`. -/
structure CreateSessionRequest where
  lecturerName : String
  sessionName : String
  timeLimit : Option Nat
  deriving DecidableEq

/-- The `session-created` response `{ sessionId, joinCode, timeLimit }`. -/
structure CreateSessionResponse where
  sessionId : Nat
  joinCode : String
  timeLimit : Nat
  deriving DecidableEq

/-- `const timeLimit = data.timeLimit || 10`: JS `||` replaces the falsy
values `undefined` and `0` by the default. -/
def defaultedTimeLimit : Option Nat → Nat
  | none => 10
  | some 0 => 10
  | some n => n

/-- `createSession`: generate id and join code (passed in here as the
freshness tokens the uuid/random generators return), then insert a row in
status `waiting` with the defaulted time limit, and answer
`session-created`.  There is no validation branch: every request reaches the
INSERT. -/
def createSession (sessions : List SessionRow) (data : CreateSessionRequest)
    (sessionId : Nat) (joinCode : String) :
    List SessionRow × CreateSessionResponse :=
  let timeLimit := defaultedTimeLimit data.timeLimit
  (sessions ++
      [{ id := sessionId
         lecturer_name := data.lecturerName
         session_name := data.sessionName
         join_code := joinCode
         status := "waiting"
         time_limit := timeLimit
         ended_at := none }],
    { sessionId := sessionId, joinCode := joinCode, timeLimit := timeLimit })

/-! ## submit-answer handler (lines 230-244) -/

/-- The `submit-answer` handler's INSERT: append a fresh `student_answers`
row.  No lookup of prior answers is performed. -/
def submitAnswer (answers : List AnswerRow) (answerId questionId studentId : Nat)
    (selected_answer : String) : List AnswerRow :=
  answers ++ [{ id := answerId
                question_id := questionId
                student_id := studentId
                selected_answer := selected_answer }]

/-! ## Analytics (analyticsController.js getAnalytics, lines 12-155) -/

/-- SQLite `ROUND(x, 2)` on the non-negative rates that occur here
(round half away from zero coincides with round half up for them). -/
def round2 (x : ℚ) : ℚ := (⌊x * 100 + 1 / 2⌋ : ℚ) / 100

/-- `COUNT(sa.id)` of the LEFT JOIN on `q.id = sa.question_id`, grouped by
the question. -/
def totalAnswersFor (q : QuestionRow) (answers : List AnswerRow) : Nat :=
  (answers.filter fun a => a.question_id == q.id).length

/-- `COUNT(CASE WHEN sa.selected_answer = q.correct_answer THEN 1 END)`. -/
def correctAnswersFor (q : QuestionRow) (answers : List AnswerRow) : Nat :=
  (answers.filter fun a =>
    a.question_id == q.id && a.selected_answer == q.correct_answer).length

/-- The value of `ROUND(CAST(correct AS FLOAT) / total * 100, 2)` when
`total` is nonzero. -/
def accuracyRateVal (q : QuestionRow) (answers : List AnswerRow) : ℚ :=
  round2 ((correctAnswersFor q answers : ℚ) / (totalAnswersFor q answers : ℚ) * 100)

/-- A row of `questionAnalyticsQuery` (lines 42-60), restricted to the
columns the claims concern.  In SQLite a division by zero yields `NULL`,
modelled as `none`. -/
structure QuestionStats where
  question_id : Nat
  question : String
  correct_answer : String
  total_answers : Nat
  correct_answers : Nat
  accuracy_rate : Option ℚ
  deriving DecidableEq

/-- One row of `questionAnalyticsQuery` for question `q`. -/
def questionStats (q : QuestionRow) (answers : List AnswerRow) : QuestionStats :=
  { question_id := q.id
    question := q.formatted_question
    correct_answer := q.correct_answer
    total_answers := totalAnswersFor q answers
    correct_answers := correctAnswersFor q answers
    accuracy_rate :=
      if totalAnswersFor q answers = 0 then none
      else some (accuracyRateVal q answers) }

/-- `questionAnalyticsQuery` over the session's questions, which are given in
`created_at` order (`ORDER BY q.created_at ASC`). -/
def questionAnalytics (questions : List QuestionRow) (answers : List AnswerRow) :
    List QuestionStats :=
  questions.map fun q => questionStats q answers

/-- `participation_rate` of `analyticsQuery` (lines 21-22):
`ROUND(CAST(total_answers AS FLOAT) / (total_questions * total_students) *
100, 2)`; SQLite yields `NULL` when the denominator is zero. -/
def participationRate (total_questions total_students total_answers : Nat) :
    Option ℚ :=
  if total_questions * total_students = 0 then none
  else some (round2 ((total_answers : ℚ) /
    ((total_questions : ℚ) * (total_students : ℚ)) * 100))

/-- The numeric sort key `q.accuracy_rate` used by `mostMissedQuestions`.
Every row reaching the sort passed the `total_answers > 0` filter, so its
`accuracy_rate` is non-`NULL` and the default is never taken. -/
def statKey (s : QuestionStats) : ℚ := s.accuracy_rate.getD 0

/-- The JS comparator at line 94, `(a, b) => (100 - a.accuracy_rate) -
(100 - b.accuracy_rate)`, as the relation "`a` may be placed before `b`"
(comparator value `≤ 0`). -/
def missComparatorLe (a b : QuestionStats) : Prop :=
  (100 - statKey a) - (100 - statKey b) ≤ 0

instance : DecidableRel missComparatorLe :=
  fun a b =>
    inferInstanceAs (Decidable ((100 - statKey a) - (100 - statKey b) ≤ 0))

/-- Stable insertion step of the comparator sort: place `x` before the first
`y` it may precede. -/
def insertJs {α : Type} (le : α → α → Prop) [DecidableRel le] (x : α) :
    List α → List α
  | [] => [x]
  | y :: ys => if le x y then x :: y :: ys else y :: insertJs le x ys

/-- `Array.prototype.sort(comparator)` is a stable comparator sort
(ECMAScript 2019); modelled as a stable insertion sort for the relation
"comparator value `≤ 0`". -/
def sortJs {α : Type} (le : α → α → Prop) [DecidableRel le] : List α → List α
  | [] => []
  | x :: xs => insertJs le x (sortJs le xs)

/-- An element of the `mostMissedQuestions` array (lines 96-102). -/
structure MissedQuestion where
  question : String
  accuracyRate : ℚ
  correctAnswer : String
  totalAnswers : Nat
  correctAnswers : Nat
  deriving DecidableEq

/-- Lines 92-102: `questionAnalytics.filter(q => q.total_answers > 0)
.sort((a, b) => (100 - a.accuracy_rate) - (100 - b.accuracy_rate))
.slice(0, 3).map(q => ({...}))`. -/
def mostMissedQuestions (stats : List QuestionStats) : List MissedQuestion :=
  ((sortJs missComparatorLe (stats.filter fun q => 0 < q.total_answers)).take 3).map
    fun q =>
      { question := q.question
        accuracyRate := statKey q
        correctAnswer := q.correct_answer
        totalAnswers := q.total_answers
        correctAnswers := q.correct_answers }

/-! ## Concrete states used by the witnesses and counterexamples -/

/-- A registry whose entry for session 1 references question 43, not 42:
question 42's timer has been superseded. -/
def supersededRegistry : Registry := [(1, ⟨43, 5000, 10000⟩)]

/-- A registry whose entry for session 1 still references question 42. -/
def currentRegistry : Registry := [(1, ⟨42, 5000, 10000⟩)]

/-- A registry for session 1 whose entry references question 43 while the
lecturer manually ends question 42. -/
def mismatchedRegistry : Registry := [(1, ⟨43, 5000, 10000⟩)]

/-- A registry for session 2 whose entry still references question 42. -/
def matchedRegistry : Registry := [(2, ⟨42, 5000, 10000⟩)]

/-- A registry in which session 1 runs a 30-second quiz (30000 ms) that
started at t = 10000 ms. -/
def lateJoinRegistry : Registry := [(1, ⟨42, 10000, 30000⟩)]

/-- A stored question whose correct option is B. -/
def storedQuestion : QuestionRow :=
  { id := 7, session_id := 1, formatted_question := "What is the speed of light?"
    option_a := "1 m/s", option_b := "3e8 m/s", option_c := "340 m/s"
    option_d := "9.8 m/s", correct_answer := "B", created_at := 1 }

/-- A generated quiz whose correct option is B. -/
def generatedQuizB : GeneratedQuiz :=
  { optionA := "1 m/s", optionB := "3e8 m/s", optionC := "340 m/s"
    optionD := "9.8 m/s", correctAnswer := "B" }

/-- A question of session 1 that has received no answers. -/
def unansweredQuestion : QuestionRow :=
  { id := 5, session_id := 1, formatted_question := "Q5"
    option_a := "a", option_b := "b", option_c := "c", option_d := "d"
    correct_answer := "A", created_at := 1 }

/-- An active session with join code JC1 that has not ended. -/
def activeSession : SessionRow :=
  { id := 1, lecturer_name := "Alice", session_name := "Physics"
    join_code := "JC1", status := "active", time_limit := 10, ended_at := none }

/-- A create-session request with empty names and a time limit of 400
seconds, far outside the spec's example bound of [5, 300]. -/
def invalidCreateRequest : CreateSessionRequest :=
  { lecturerName := "", sessionName := "", timeLimit := some 400 }

/-- A question row with id 7 for the duplicate-answer scenario. -/
def question7 : QuestionRow :=
  { id := 7, session_id := 1, formatted_question := "Q7"
    option_a := "a", option_b := "b", option_c := "c", option_d := "d"
    correct_answer := "A", created_at := 1 }

/-- Student 21 answers question 7 twice: first A (row 101), then B
(row 102). -/
def doubleAnswers : List AnswerRow :=
  submitAnswer (submitAnswer [] 101 7 21 "A") 102 7 21 "B"

/-- Question Q1 of the analytics scenario: its one received answer is
correct (100% accuracy). -/
def perfectQuestion : QuestionRow :=
  { id := 1, session_id := 1, formatted_question := "Q1"
    option_a := "a", option_b := "b", option_c := "c", option_d := "d"
    correct_answer := "A", created_at := 1 }

/-- Question Q2 of the analytics scenario: its one received answer is
wrong (0% accuracy). -/
def missedQuestion : QuestionRow :=
  { id := 2, session_id := 1, formatted_question := "Q2"
    option_a := "a", option_b := "b", option_c := "c", option_d := "d"
    correct_answer := "A", created_at := 2 }

/-- The answers of the analytics scenario: a correct answer to Q1 and a
wrong answer to Q2. -/
def failingAnswers : List AnswerRow :=
  [{ id := 101, question_id := 1, student_id := 21, selected_answer := "A" },
   { id := 102, question_id := 2, student_id := 22, selected_answer := "B" }]

/-- The `questionAnalyticsQuery` rows of the analytics scenario. -/
def failingStats : List QuestionStats :=
  questionAnalytics [perfectQuestion, missedQuestion] failingAnswers

/-! ## Shared helper lemmas -/

theorem lookupTimer_deleteTimer (reg : Registry) (sessionId : Nat) :
    lookupTimer (deleteTimer reg sessionId) sessionId = none := by
  induction reg with
  | nil => rfl
  | cons hd tl ih =>
      obtain ⟨k, v⟩ := hd
      by_cases hk : k = sessionId
      · simpa [deleteTimer, hk] using ih
      · simp [deleteTimer, lookupTimer, hk, ih]

/-! ## C2 -/

/-- C2: if a quiz's timer entry has been superseded before its scheduled
timeout callback fires — the session's registry entry is gone or no longer
references its `questionId` — then the callback produces no broadcast and
performs no registry mutation: the stale timer is inert. -/
theorem c2_stale_timeout_callback_inert (reg : Registry)
    (sessionId questionId : Nat) (correctAnswer : String)
    (h : lookupTimer reg sessionId = none ∨
      ∃ t, lookupTimer reg sessionId = some t ∧ t.questionId ≠ questionId) :
    timeoutCallback reg sessionId questionId correctAnswer = (reg, []) := by
  rcases h with h | ⟨t, ht, hne⟩
  · simp [timeoutCallback, h]
  · simp [timeoutCallback, ht, hne]

/-- C2 witness: in a registry whose entry for session 1 references
question 43, the timeout callback for the superseded question 42 emits
nothing and leaves the registry untouched. -/
theorem c2_stale_timeout_callback_inert_witness :
    timeoutCallback supersededRegistry 1 42 "B" = (supersededRegistry, []) :=
  c2_stale_timeout_callback_inert supersededRegistry 1 42 "B"
    (Or.inr ⟨⟨43, 5000, 10000⟩, rfl, by decide⟩)

/-! ## C3 -/

/-- C3: a participant joining while a quiz is active receives a
`currentTimer` snapshot whose `timeRemaining` is exactly
`max(0, duration − (now − start))` (read from the registry entry) converted
to whole seconds by `Math.ceil`; moreover, once at least one full second has
elapsed, the reported value is strictly below the full duration in seconds —
the countdown is never reset to the full duration. -/
theorem c3_late_join_snapshot (reg : Registry) (sessionId now : Nat)
    (t : TimerEntry) (h : lookupTimer reg sessionId = some t) :
    currentTimerInfo reg sessionId now =
      some { questionId := t.questionId
             timeRemaining := msToSecCeil (specTimeRemainingMs t now).toNat
             startTime := t.startTime } ∧
    (1000 ≤ now - t.startTime → t.startTime ≤ now → 0 < t.timeLimit →
      msToSecCeil (specTimeRemainingMs t now).toNat < msToSecCeil t.timeLimit) := by
  constructor
  · simp [currentTimerInfo, h, specTimeRemainingMs]
  · intro helapsed hstart hpos
    unfold specTimeRemainingMs msToSecCeil
    omega

/-- C3 witness: joining session 1 at t = 17000 ms, 7 seconds into the
30-second quiz that started at t = 10000 ms, reports 23 seconds remaining,
not the full 30. -/
theorem c3_late_join_snapshot_witness :
    currentTimerInfo lateJoinRegistry 1 17000 = some ⟨42, 23, 10000⟩ ∧
    (23 : Nat) < 30 := by
  have h := c3_late_join_snapshot lateJoinRegistry 1 17000 ⟨42, 10000, 30000⟩ rfl
  exact ⟨h.1.trans (by decide), by decide⟩

/-! ## C5 -/

/-- C5 counterexample: the claim asserts the timeout callback, firing while
its quiz is still current, removes the session's registry entry; in fact it
broadcasts `quiz-timeout` but the registry is returned unchanged, and the
entry still exists afterwards. -/
theorem c5_counterexample :
    (timeoutCallback currentRegistry 1 42 "B").2 =
      [Broadcast.quizTimeout 42 "B"] ∧
    (timeoutCallback currentRegistry 1 42 "B").1 = currentRegistry ∧
    lookupTimer (timeoutCallback currentRegistry 1 42 "B").1 1 ≠ none := by
  refine ⟨rfl, rfl, by decide⟩

/-- C5 (amended): when the scheduled timeout callback fires and the
session's registry entry still references that callback's `questionId`, the
callback broadcasts `quiz-timeout` revealing the correct answer, but
performs no registry mutation: the entry is left in place rather than
removed. -/
theorem c5_timeout_reveals_without_cleanup (reg : Registry)
    (sessionId questionId : Nat) (correctAnswer : String) (t : TimerEntry)
    (h : lookupTimer reg sessionId = some t) (hq : t.questionId = questionId) :
    timeoutCallback reg sessionId questionId correctAnswer =
      (reg, [Broadcast.quizTimeout questionId correctAnswer]) := by
  simp [timeoutCallback, h, hq]

/-- C5 witness: in a registry whose entry for session 1 still references
question 42, the callback reveals answer B and leaves the registry as it
was. -/
theorem c5_timeout_reveals_without_cleanup_witness :
    timeoutCallback currentRegistry 1 42 "B" =
      (currentRegistry, [Broadcast.quizTimeout 42 "B"]) :=
  c5_timeout_reveals_without_cleanup currentRegistry 1 42 "B"
    ⟨42, 5000, 10000⟩ rfl rfl

/-! ## C6 -/

/-- C6 counterexample: the claim asserts `end-quiz-manually` is a silent
no-op when the registry no longer references the given quiz; in fact, with
the session's entry referencing question 43, manually ending question 42
still broadcasts `quiz-results` revealing its correct answer (and confirms
to the lecturer) — not a silent no-op. -/
theorem c6_counterexample :
    (endQuizManually mismatchedRegistry 1 42 "B").2 =
      [Broadcast.quizResults 42 "B" true, Broadcast.quizEndedConfirm 42] ∧
    (endQuizManually mismatchedRegistry 1 42 "B").2 ≠ [] := by
  refine ⟨rfl, by decide⟩

/-- C6 (amended): `end-quiz-manually` always broadcasts `quiz-results`
revealing the correct answer (with `endedManually = true`) and confirms to
the lecturer, whether or not the registry still references the given
`questionId`; the registry-consistency check guards only the cleanup — the
entry is deleted (leaving no entry for the session) exactly when it still
references `questionId`, and is left untouched otherwise.  No error is
reported in either case. -/
theorem c6_manual_end_always_reveals (reg : Registry)
    (sessionId questionId : Nat) (ca : String) :
    (endQuizManually reg sessionId questionId ca).2 =
      [Broadcast.quizResults questionId ca true,
       Broadcast.quizEndedConfirm questionId] ∧
    (∀ t, lookupTimer reg sessionId = some t → t.questionId = questionId →
      (endQuizManually reg sessionId questionId ca).1 = deleteTimer reg sessionId ∧
      lookupTimer (endQuizManually reg sessionId questionId ca).1 sessionId = none) ∧
    (∀ t, lookupTimer reg sessionId = some t → t.questionId ≠ questionId →
      (endQuizManually reg sessionId questionId ca).1 = reg) := by
  refine ⟨rfl, ?_, ?_⟩
  · intro t ht hq
    have hr : (endQuizManually reg sessionId questionId ca).1 =
        deleteTimer reg sessionId := by
      simp [endQuizManually, ht, hq]
    exact ⟨hr, by rw [hr]; exact lookupTimer_deleteTimer reg sessionId⟩
  · intro t ht hq
    simp [endQuizManually, ht, hq]

/-- C6 witness: with session 2's entry still referencing question 42, the
manual end reveals answer C, confirms, and deletes the entry. -/
theorem c6_manual_end_always_reveals_witness :
    (endQuizManually matchedRegistry 2 42 "C").2 =
      [Broadcast.quizResults 42 "C" true, Broadcast.quizEndedConfirm 42] ∧
    (endQuizManually matchedRegistry 2 42 "C").1 = deleteTimer matchedRegistry 2 ∧
    lookupTimer (endQuizManually matchedRegistry 2 42 "C").1 2 = none := by
  have h := c6_manual_end_always_reveals matchedRegistry 2 42 "C"
  have h2 := h.2.1 ⟨42, 5000, 10000⟩ rfl rfl
  exact ⟨h.1, h2.1, h2.2⟩

/-! ## C1 -/

/-- C1 counterexample: the claim asserts pre-reveal participant payloads do
not contain which option is correct; in fact, for a stored question whose
correct option is B, the `previousQuestions` entry of `session-joined`
carries `correctAnswer = "B"`, and so does the `new-quiz` broadcast built
from a generated quiz with correct option B. -/
theorem c1_counterexample :
    (formatQuestion storedQuestion).correctAnswer = "B" ∧
    (previousQuestions [storedQuestion]).map ClientQuestion.correctAnswer = ["B"] ∧
    (newQuizPayload 7 "What is the speed of light?" generatedQuizB 10 0).correctAnswer
      = "B" :=
  ⟨rfl, rfl, rfl⟩

/-- C1 (amended): the participant-facing quiz payloads sent before reveal do
contain the correct answer — every `previousQuestions` entry of
`session-joined` carries `correctAnswer` equal to the stored row's
`correct_answer`, and the `new-quiz` broadcast carries `correctAnswer` equal
to the generated quiz's correct option; concealment before the reveal
broadcast is left entirely to the client. -/
theorem c1_payloads_include_correct_answer (q : QuestionRow)
    (questions : List QuestionRow) (questionId : Nat) (question : String)
    (quiz : GeneratedQuiz) (timeLimit startTime : Nat) :
    (formatQuestion q).correctAnswer = q.correct_answer ∧
    (previousQuestions questions).map ClientQuestion.correctAnswer =
      questions.map QuestionRow.correct_answer ∧
    (newQuizPayload questionId question quiz timeLimit startTime).correctAnswer =
      quiz.correctAnswer := by
  refine ⟨rfl, ?_, rfl⟩
  simp [previousQuestions, formatQuestion]

/-! ## C7 -/

/-- C7 counterexample: the claim asserts a quiz with zero answers reports an
accuracy rate of 0; in fact SQLite's division by zero makes the
`accuracy_rate` column `NULL` (`none`), not 0. -/
theorem c7_counterexample :
    (questionStats unansweredQuestion []).accuracy_rate = none ∧
    (questionStats unansweredQuestion []).accuracy_rate ≠ some 0 :=
  ⟨rfl, fun h => Option.noConfusion h⟩

/-- C7 (amended): for a quiz with zero answers the per-quiz `accuracy_rate`
is `NULL` (`none`) — a defined value, never NaN and never a
division-by-zero failure — and the session-wide `participation_rate` is
likewise `NULL` whenever `total_questions × total_students` is zero. -/
theorem c7_zero_denominators_yield_null (q : QuestionRow)
    (answers : List AnswerRow) (nq ns na : Nat) :
    (totalAnswersFor q answers = 0 →
      (questionStats q answers).accuracy_rate = none) ∧
    (nq * ns = 0 → participationRate nq ns na = none) := by
  constructor
  · intro h; simp [questionStats, h]
  · intro h; simp [participationRate, h]

/-- C7 witness: the unanswered question's accuracy rate is `NULL`, and a
session with 3 quizzes but 0 participants has a `NULL` participation
rate. -/
theorem c7_zero_denominators_yield_null_witness :
    (questionStats unansweredQuestion []).accuracy_rate = none ∧
    participationRate 3 0 7 = none := by
  have h := c7_zero_denominators_yield_null unansweredQuestion [] 3 0 7
  exact ⟨h.1 rfl, h.2 rfl⟩

/-! ## C8 -/

/-- C8 counterexample: the claim asserts `stop-recording` does not set the
session's status to ended and does not stamp `ended_at`; in fact, stopping
recording for the active session sets `status = "ended"`, stamps
`ended_at`, and the session's join code no longer resolves (the join lookup
excludes ended sessions). -/
theorem c8_counterexample :
    (stopRecording [activeSession] 1 99).map SessionRow.status = ["ended"] ∧
    (stopRecording [activeSession] 1 99).map SessionRow.ended_at = [some 99] ∧
    findJoinableSession (stopRecording [activeSession] 1 99) "JC1" = none ∧
    findJoinableSession [activeSession] "JC1" = some activeSession :=
  ⟨rfl, rfl, rfl, rfl⟩

/-- C8 (amended): `stop-recording` performs the full session end rather than
ending only a recording substream: the targeted session's status is set to
`"ended"` and its `ended_at` is stamped with the current time (other
sessions are untouched). -/
theorem c8_stop_recording_is_full_end (sessions : List SessionRow)
    (sessionId now : Nat) (s : SessionRow)
    (hmem : s ∈ stopRecording sessions sessionId now) (hid : s.id = sessionId) :
    s.status = "ended" ∧ s.ended_at = some now := by
  rcases List.mem_map.mp hmem with ⟨s0, _, heq⟩
  by_cases h0 : s0.id = sessionId
  · simp only [h0, if_pos rfl] at heq
    rw [← heq]
    exact ⟨rfl, rfl⟩
  · rw [if_neg h0] at heq
    rw [← heq] at hid
    exact absurd hid h0

/-- C8 witness: after stopping recording at t = 99 on the single-session
store, the stored session is ended with `ended_at = 99`. -/
theorem c8_stop_recording_is_full_end_witness :
    ({ id := 1, lecturer_name := "Alice", session_name := "Physics"
       join_code := "JC1", status := "ended", time_limit := 10
       ended_at := some 99 } : SessionRow).status = "ended" ∧
    ({ id := 1, lecturer_name := "Alice", session_name := "Physics"
       join_code := "JC1", status := "ended", time_limit := 10
       ended_at := some 99 } : SessionRow).ended_at = some 99 :=
  c8_stop_recording_is_full_end [activeSession] 1 99 _
    (List.mem_singleton.mpr rfl) rfl

/-! ## C9 -/

/-- C9 counterexample: the claim asserts a create-session request with an
out-of-range time limit or empty names is rejected with no session created;
in fact the request with empty lecturer and session names and a 400-second
time limit creates exactly one session row carrying those values and
answers `session-created` — no error path is taken. -/
theorem c9_counterexample :
    ((createSession [] invalidCreateRequest 1 "ABC123").1).length = 1 ∧
    (createSession [] invalidCreateRequest 1 "ABC123").2 =
      { sessionId := 1, joinCode := "ABC123", timeLimit := 400 } ∧
    (createSession [] invalidCreateRequest 1 "ABC123").1 =
      [{ id := 1, lecturer_name := "", session_name := "", join_code := "ABC123"
         status := "waiting", time_limit := 400, ended_at := none }] :=
  ⟨rfl, rfl, rfl⟩

/-- C9 (amended): `create-session` performs no input validation: every
request — whatever its time limit (a missing or zero one defaults to 10)
and even with empty title or presenter name — appends exactly one session
row in `waiting` status with those values and is answered with
`session-created`; errors can arise only from storage failure. -/
theorem c9_create_session_never_validates (sessions : List SessionRow)
    (data : CreateSessionRequest) (sessionId : Nat) (joinCode : String) :
    ((createSession sessions data sessionId joinCode).1).length =
      sessions.length + 1 ∧
    ({ id := sessionId, lecturer_name := data.lecturerName
       session_name := data.sessionName, join_code := joinCode
       status := "waiting", time_limit := defaultedTimeLimit data.timeLimit
       ended_at := none } : SessionRow) ∈
      (createSession sessions data sessionId joinCode).1 ∧
    (createSession sessions data sessionId joinCode).2 =
      { sessionId := sessionId, joinCode := joinCode
        timeLimit := defaultedTimeLimit data.timeLimit } := by
  refine ⟨by simp [createSession], ?_, rfl⟩
  simp [createSession]

/-! ## C10 -/

/-- C10: an accepted `submit-answer` (fresh primary key) always inserts a
new row: the store stays schema-consistent, every prior row — including an
earlier answer by the same participant to the same quiz — is kept, the new
row is present, and the analytics count of the targeted quiz grows by one.
Nothing rejects or overwrites duplicates for a `(quiz, participant)`
pair. -/
theorem c10_submit_answer_appends (answers : List AnswerRow)
    (answerId questionId studentId : Nat) (selected : String) (q : QuestionRow)
    (hfresh : answerId ∉ answers.map AnswerRow.id)
    (hok : answersPrimaryKeyOk answers) :
    answersPrimaryKeyOk (submitAnswer answers answerId questionId studentId selected) ∧
    (submitAnswer answers answerId questionId studentId selected).length =
      answers.length + 1 ∧
    (∀ a, a ∈ answers →
      a ∈ submitAnswer answers answerId questionId studentId selected) ∧
    ({ id := answerId, question_id := questionId, student_id := studentId
       selected_answer := selected } : AnswerRow) ∈
      submitAnswer answers answerId questionId studentId selected ∧
    totalAnswersFor q (submitAnswer answers answerId questionId studentId selected) =
      totalAnswersFor q answers + (if questionId = q.id then 1 else 0) := by
  refine ⟨?_, ?_, ?_, ?_, ?_⟩
  · simp only [answersPrimaryKeyOk, submitAnswer, List.map_append,
      List.nodup_append]
    exact ⟨hok, List.nodup_singleton _, by
      intro x hx hy
      simp only [List.map_cons, List.map_nil, List.mem_singleton] at hy
      exact hfresh (hy ▸ hx)⟩
  · simp [submitAnswer]
  · intro a ha
    exact List.mem_append_left _ ha
  · exact List.mem_append_right _ (List.mem_singleton.mpr rfl)
  · simp only [totalAnswersFor, submitAnswer, List.filter_append,
      List.length_append]
    by_cases hq : questionId = q.id
    · simp [hq]
    · have hb : (questionId == q.id) = false := beq_eq_false_iff_ne.mpr hq
      simp [List.filter, hb, hq]

/-- C10 witness: student 21 answers question 7 twice; both rows are stored
under distinct primary keys and both are counted, so question 7's
`total_answers` is 2. -/
theorem c10_submit_answer_appends_witness :
    answersPrimaryKeyOk doubleAnswers ∧
    doubleAnswers.length = 2 ∧
    ({ id := 101, question_id := 7, student_id := 21
       selected_answer := "A" } : AnswerRow) ∈ doubleAnswers ∧
    ({ id := 102, question_id := 7, student_id := 21
       selected_answer := "B" } : AnswerRow) ∈ doubleAnswers ∧
    totalAnswersFor question7 doubleAnswers = 2 := by
  have h := c10_submit_answer_appends (submitAnswer [] 101 7 21 "A")
    102 7 21 "B" question7 (by decide) (by decide)
  refine ⟨h.1, by decide, ?_, h.2.2.2.1, by decide⟩
  exact h.2.2.1 _ (by decide)

/-! ## C4 -/

/-- C4: the claim requires the most problematic question to be the quiz
with the lowest accuracy among answered quizzes with accuracy < 100%, with
a null field and a distinct signal when no quiz qualifies.  The code's
comparator `(100 - a.accuracy_rate) - (100 - b.accuracy_rate)` sorts by
accuracy descending, and nothing filters out 100%-accurate quizzes: on a
session where Q1 is answered perfectly (100%) and Q2 entirely wrongly (0%),
`mostMissedQuestions` lists the perfect Q1 first and the genuinely missed Q2
last, and on a session whose only answered quiz is 100% accurate the list
is still non-empty, so no "perfect performance" signal is distinguishable
from the mixed case. -/
theorem c4_most_missed_selects_least_missed :
    (questionStats perfectQuestion failingAnswers).accuracy_rate = some 100 ∧
    (questionStats missedQuestion failingAnswers).accuracy_rate = some 0 ∧
    (mostMissedQuestions failingStats).map MissedQuestion.question =
      ["Q1", "Q2"] ∧
    (mostMissedQuestions failingStats).head? =
      some { question := "Q1", accuracyRate := 100, correctAnswer := "A"
             totalAnswers := 1, correctAnswers := 1 } ∧
    mostMissedQuestions (questionAnalytics [perfectQuestion]
      [{ id := 101, question_id := 1, student_id := 21,
         selected_answer := "A" }]) ≠ [] := by
  have ht1 : totalAnswersFor perfectQuestion failingAnswers = 1 := rfl
  have hc1 : correctAnswersFor perfectQuestion failingAnswers = 1 := rfl
  have ht2 : totalAnswersFor missedQuestion failingAnswers = 1 := rfl
  have hc2 : correctAnswersFor missedQuestion failingAnswers = 0 := rfl
  have ha1 : accuracyRateVal perfectQuestion failingAnswers = 100 := by
    unfold accuracyRateVal
    rw [ht1, hc1]
    norm_num [round2]
  have ha2 : accuracyRateVal missedQuestion failingAnswers = 0 := by
    unfold accuracyRateVal
    rw [ht2, hc2]
    norm_num [round2]
  have hs1 : questionStats perfectQuestion failingAnswers =
      { question_id := 1, question := "Q1", correct_answer := "A"
        total_answers := 1, correct_answers := 1, accuracy_rate := some 100 } := by
    have hbase : questionStats perfectQuestion failingAnswers =
        { question_id := 1, question := "Q1", correct_answer := "A"
          total_answers := 1, correct_answers := 1
          accuracy_rate := some (accuracyRateVal perfectQuestion failingAnswers) } :=
      rfl
    rw [hbase, ha1]
  have hs2 : questionStats missedQuestion failingAnswers =
      { question_id := 2, question := "Q2", correct_answer := "A"
        total_answers := 1, correct_answers := 0, accuracy_rate := some 0 } := by
    have hbase : questionStats missedQuestion failingAnswers =
        { question_id := 2, question := "Q2", correct_answer := "A"
          total_answers := 1, correct_answers := 0
          accuracy_rate := some (accuracyRateVal missedQuestion failingAnswers) } :=
      rfl
    rw [hbase, ha2]
  have hfs : failingStats =
      [{ question_id := 1, question := "Q1", correct_answer := "A"
         total_answers := 1, correct_answers := 1, accuracy_rate := some 100 },
       { question_id := 2, question := "Q2", correct_answer := "A"
         total_answers := 1, correct_answers := 0, accuracy_rate := some 0 }] := by
    show [questionStats perfectQuestion failingAnswers,
          questionStats missedQuestion failingAnswers] = _
    rw [hs1, hs2]
  have hle : missComparatorLe
      { question_id := 1, question := "Q1", correct_answer := "A"
        total_answers := 1, correct_answers := 1, accuracy_rate := some 100 }
      { question_id := 2, question := "Q2", correct_answer := "A"
        total_answers := 1, correct_answers := 0, accuracy_rate := some 0 } := by
    norm_num [missComparatorLe, statKey]
  have hmm : mostMissedQuestions failingStats =
      [{ question := "Q1", accuracyRate := 100, correctAnswer := "A"
         totalAnswers := 1, correctAnswers := 1 },
       { question := "Q2", accuracyRate := 0, correctAnswer := "A"
         totalAnswers := 1, correctAnswers := 0 }] := by
    unfold mostMissedQuestions
    rw [hfs]
    simp only [List.filter]
    simp only [sortJs, insertJs, if_pos hle]
    norm_num [statKey]
  refine ⟨?_, ?_, ?_, ?_, ?_⟩
  · rw [hs1]
  · rw [hs2]
  · rw [hmm]; rfl
  · rw [hmm]; rfl
  · decide

end LecRecall
